import Mathlib

/-
Verification of the infrahub-backup orchestration logic.

The Go source is shallowly embedded: every effectful primitive (remote exec,
file stat, digest computation, container start/stop) is an input supplied by a
"world" record, and each orchestration function is translated into a pure Lean
function over that world which returns its Go result together with a trace of
the externally visible actions it performed.  Control flow, branch conditions
and error messages follow the source line by line.

Sources embedded here:
  - src/src/internal/app/backup.go        (RestoreBackup, KubernetesBackend)
  - src/src/internal/app/backup_neo4j.go  (community watchdog stop/dump/load)
  - src/S3_BACKUP.md (embedded Go source)  (CreateBackup / RestoreBackup with the
    checksum-validation and edition-reconciliation logic written inline; the
    current backup.go calls helpers — calculateBackupChecksums,
    validateBackupChecksums, ResolveRestoreEdition — whose bodies are exactly
    this inline logic)
-/

/-! ## Go string primitives -/

/-- Model of Go `strings.ToLower` (ASCII case mapping, which is all the
edition strings use). -/
def goToLower (s : String) : String := ⟨s.data.map Char.toLower⟩

/-- Model of Go `strings.EqualFold` restricted to ASCII case folding (the
only comparisons made are against ASCII literals such as "Running"). -/
def goEqualFold (a b : String) : Bool :=
  a.data.map Char.toLower == b.data.map Char.toLower

/-- Characters trimmed by Go `strings.TrimSpace` (the ASCII and Latin-1
whitespace; other Unicode space runes do not occur in PID files). -/
def goIsSpace (c : Char) : Bool :=
  c == ' ' || c == '\t' || c == '\n' || c == '\x0b' || c == '\x0c' ||
    c == '\r' || c == '\x85' || c == '\xa0'

/-- Model of Go `strings.TrimSpace`. -/
def goTrimSpace (s : String) : String :=
  ⟨((s.data.dropWhile goIsSpace).reverse.dropWhile goIsSpace).reverse⟩

/-- Model of Go `strings.Join`: elements separated by `sep`. -/
def stringsJoin : List String → String → String
  | [], _ => ""
  | [a], _ => a
  | a :: b :: rest, sep => a ++ sep ++ stringsJoin (b :: rest) sep

/-- Model of Go `strconv.Atoi`: optional sign, one or more decimal digits,
value restricted to a signed 64-bit integer; `none` models a non-nil error. -/
def goAtoi (s : String) : Option Int :=
  let (sign, ds) : Int × List Char :=
    match s.data with
    | '+' :: rest => (1, rest)
    | '-' :: rest => (-1, rest)
    | chars => (1, chars)
  if ds.isEmpty then none
  else if ds.all Char.isDigit then
    let n : Int := ds.foldl (fun a c => a * 10 + (Int.ofNat (c.toNat - 48))) 0
    let v := sign * n
    if -(2 ^ 63) ≤ v && v < 2 ^ 63 then some v else none
  else none

/-! ## Shared data model -/

/-- Result of a Go `os.Stat` call as the code distinguishes it:
success, a not-exist error, or any other error. -/
inductive GoStat where
  | ok
  | enoent
  | fail (e : String)
deriving DecidableEq, Repr

/-- The BackupMetadata struct serialized into `backup_information.json`
(backup.go / S3_BACKUP.md embedded source).  The Go `Checksums` map is
modelled as an association list with unique keys in some iteration order. -/
structure BackupMetadata where
  backupID : String
  createdAt : String
  toolVersion : String
  infrahubVersion : String
  neo4jEdition : String
  components : List String
  checksums : List (String × String)
deriving DecidableEq, Repr

/-- Edition name constant (compared against lowercased probe output, so the
constant itself is the lowercase name). -/
def neo4jEditionCommunity : String := "community"

/-- Edition name constant, lowercase like `neo4jEditionCommunity`. -/
def neo4jEditionEnterprise : String := "enterprise"

/-! ## Edition reconciliation (S3_BACKUP.md embedded RestoreBackup, the body
of `Neo4jEditionInfo.ResolveRestoreEdition` called by backup.go) -/

/-- Restore-time edition reconciliation: given the edition recorded in the
backup metadata and the live detection result, choose the restore procedure
or fail.  Translated from the embedded RestoreBackup source:
detection failure defaults to community; community backup on enterprise live
uses community; enterprise backup on community live is a hard error;
otherwise the detected live edition is used. -/
def resolveRestoreEdition (metadataEdition : String)
    (detected : Except String String) : Except String String :=
  let e := goToLower metadataEdition
  match detected with
  | .error _ => .ok neo4jEditionCommunity
  | .ok d =>
    if e == neo4jEditionCommunity && goToLower d == neo4jEditionEnterprise then
      .ok neo4jEditionCommunity
    else if e == neo4jEditionEnterprise && goToLower d == neo4jEditionCommunity then
      .error "cannot restore Enterprise backup on Community edition Neo4j"
    else
      .ok (goToLower d)

/-! ## RestoreBackup -/

/-- Externally visible actions of a restore run, in execution order. -/
inductive REvent where
  | extract
  | calcSha (rel : String)
  | wipeTransient
  | stopApp
  | restorePG
  | restartDeps
  | restoreNeo4j (edition : String)
  | startServices
deriving DecidableEq, Repr

/-- The destructive steps of a restore: wiping transient data, stopping the
application containers, and the database restore commands. -/
def REvent.destructive : REvent → Bool
  | .wipeTransient => true
  | .stopApp => true
  | .restorePG => true
  | .restoreNeo4j _ => true
  | _ => false

/-- Outcomes of every effectful call RestoreBackup makes, one field per call
site.  File paths are relative to the extracted `workDir/backup` directory. -/
structure RestoreWorld where
  backupFileExists : Bool
  checkPrerequisites : Except String Unit
  detectEnvironment : Except String Unit
  mkdirTemp : Except String Unit
  extractTarball : Except String Unit
  metadataFileExists : Bool
  readMetadataFile : Except String Unit
  parseMetadata : Except String BackupMetadata
  detectNeo4jEdition : Except String String
  statAt : String → GoStat
  calculateSHA256 : String → Except String String
  stopAppContainers : Except String Unit
  restorePostgreSQL : Except String Unit
  restartDependencies : Except String Unit
  restoreNeo4j : String → Bool → Except String Unit
  startServices : Except String Unit

/-- The restore checksum-validation loop over `metadata.Checksums`:
the workflow dump key is skipped; for every other entry the file must be
present (any stat error counts as missing) and its recomputed digest must
equal the recorded one.  Emits a `calcSha` event for each digest computed.
Translated from the embedded RestoreBackup source (the body of the factored
`validateBackupChecksums` helper). -/
def validateChecksumEntries (w : RestoreWorld) :
    List (String × String) → Except String Unit × List REvent
  | [] => (.ok (), [])
  | (rel, expected) :: rest =>
    if rel == "prefect.dump" then validateChecksumEntries w rest
    else
      match w.statAt rel with
      | GoStat.ok =>
        match w.calculateSHA256 rel with
        | .error e =>
          (.error ("failed to calculate checksum for " ++ rel ++ ": " ++ e),
            [REvent.calcSha rel])
        | .ok sum =>
          if sum == expected then
            let (r, t) := validateChecksumEntries w rest
            (r, REvent.calcSha rel :: t)
          else
            (.error ("checksum mismatch for " ++ rel ++ ": expected " ++
              expected ++ ", got " ++ sum), [REvent.calcSha rel])
      | _ => (.error ("missing backup file: " ++ rel), [])

/-- Validation of the workflow-store dump checksum, run only when the dump
will actually be restored. -/
def validatePrefectChecksum (w : RestoreWorld) (metadata : BackupMetadata) :
    Except String Unit × List REvent :=
  match metadata.checksums.lookup "prefect.dump" with
  | none => (.error "missing checksum for prefect.dump in metadata", [])
  | some expected =>
    match w.calculateSHA256 "prefect.dump" with
    | .error e =>
      (.error ("failed to calculate checksum for prefect.dump: " ++ e),
        [REvent.calcSha "prefect.dump"])
    | .ok sum =>
      if sum == expected then (.ok (), [REvent.calcSha "prefect.dump"])
      else
        (.error ("checksum mismatch for prefect.dump: expected " ++ expected ++
          ", got " ++ sum), [REvent.calcSha "prefect.dump"])

/-- Tail of the restore after the PostgreSQL step: restart dependencies,
restore Neo4j, restart the Infrahub services. -/
def restoreAfterPG (w : RestoreWorld) (edition : String) (migrate : Bool)
    (tr : List REvent) : Except String Unit × List REvent :=
  match w.restartDependencies with
  | .error e => (.error e, tr ++ [REvent.restartDeps])
  | .ok _ =>
    match w.restoreNeo4j edition migrate with
    | .error e =>
      (.error e, tr ++ [REvent.restartDeps, REvent.restoreNeo4j edition])
    | .ok _ =>
      match w.startServices with
      | .error e =>
        (.error ("failed to restart infrahub services: " ++ e),
          tr ++ [REvent.restartDeps, REvent.restoreNeo4j edition,
            REvent.startServices])
      | .ok _ =>
        (.ok (), tr ++ [REvent.restartDeps, REvent.restoreNeo4j edition,
          REvent.startServices])

/-- The destructive phase of the restore, entered only after every validation
gate has passed: wipe transient data, stop the application containers,
optionally restore PostgreSQL, then hand off to `restoreAfterPG`. -/
def restoreDestructivePhase (w : RestoreWorld) (edition : String)
    (validatePrefect migrate : Bool) (tr : List REvent) :
    Except String Unit × List REvent :=
  let tr := tr ++ [REvent.wipeTransient]
  match w.stopAppContainers with
  | .error e => (.error e, tr ++ [REvent.stopApp])
  | .ok _ =>
    let tr := tr ++ [REvent.stopApp]
    if validatePrefect then
      match w.restorePostgreSQL with
      | .error e => (.error e, tr ++ [REvent.restorePG])
      | .ok _ => restoreAfterPG w edition migrate (tr ++ [REvent.restorePG])
    else restoreAfterPG w edition migrate tr

/-- RestoreBackup, translated from the source: stat the archive, check
prerequisites, detect the environment, extract, load and parse the metadata,
reconcile editions, validate every checksum, check workflow-dump presence and
digest, and only then run the destructive phase. -/
def RestoreBackup (w : RestoreWorld) (excludeTaskManager restoreMigrateFormat : Bool) :
    Except String Unit × List REvent :=
  if !w.backupFileExists then (.error "backup file not found", [])
  else match w.checkPrerequisites with
  | .error e => (.error e, [])
  | .ok _ =>
  match w.detectEnvironment with
  | .error e => (.error e, [])
  | .ok _ =>
  match w.mkdirTemp with
  | .error e => (.error ("failed to create temp directory: " ++ e), [])
  | .ok _ =>
  match w.extractTarball with
  | .error e => (.error ("failed to extract backup: " ++ e), [REvent.extract])
  | .ok _ =>
  if !w.metadataFileExists then
    (.error "invalid backup file: missing metadata", [REvent.extract])
  else match w.readMetadataFile with
  | .error e => (.error ("failed to read metadata: " ++ e), [REvent.extract])
  | .ok _ =>
  match w.parseMetadata with
  | .error e => (.error ("failed to parse metadata: " ++ e), [REvent.extract])
  | .ok metadata =>
  match resolveRestoreEdition metadata.neo4jEdition w.detectNeo4jEdition with
  | .error e => (.error e, [REvent.extract])
  | .ok neo4jEdition =>
  let taskManagerIncluded :=
    metadata.components.contains "task-manager-db" ||
      (metadata.checksums.lookup "prefect.dump").isSome
  match validateChecksumEntries w metadata.checksums with
  | (.error e, t) => (.error e, REvent.extract :: t)
  | (.ok _, t0) =>
  let tr := REvent.extract :: t0
  match w.statAt "prefect.dump" with
  | GoStat.fail e => (.error ("failed to access prefect.dump: " ++ e), tr)
  | prefectStat =>
  let prefectExists := prefectStat == GoStat.ok
  let shouldRestoreTaskManager := taskManagerIncluded && !excludeTaskManager
  let validatePrefect := shouldRestoreTaskManager && prefectExists
  if taskManagerIncluded && !prefectExists && !excludeTaskManager then
    (.error "backup metadata includes task manager database but prefect.dump is missing",
      tr)
  else
    match (if validatePrefect then validatePrefectChecksum w metadata
           else (.ok (), [])) with
    | (.error e, t1) => (.error e, tr ++ t1)
    | (.ok _, t1) =>
      restoreDestructivePhase w neo4jEdition validatePrefect
        restoreMigrateFormat (tr ++ t1)

/-! ## Restore lemmas -/

/-- Every event the checksum-validation loop emits is a digest computation. -/
theorem validateChecksumEntries_trace (w : RestoreWorld)
    (entries : List (String × String)) :
    ∀ ev ∈ (validateChecksumEntries w entries).2, ∃ r, ev = REvent.calcSha r := by
  induction entries with
  | nil => simp [validateChecksumEntries]
  | cons hd rest ih =>
    obtain ⟨rel, expected⟩ := hd
    intro ev hev
    rw [validateChecksumEntries] at hev
    split at hev
    · exact ih ev hev
    · split at hev
      · split at hev
        · simp at hev
          exact ⟨rel, hev⟩
        · split at hev
          · simp at hev
            rcases hev with h | h
            · exact ⟨rel, h⟩
            · exact ih ev h
          · simp at hev
            exact ⟨rel, hev⟩
      · simp at hev

/-- If some non-workflow-dump entry of the checksum map names a missing file
or a digest that does not recompute to the recorded value, the validation
loop returns an error. -/
theorem validateChecksumEntries_error_of_bad (w : RestoreWorld)
    (entries : List (String × String)) (rel expected : String)
    (hmem : (rel, expected) ∈ entries) (hrel : rel ≠ "prefect.dump")
    (hbad : w.statAt rel ≠ GoStat.ok ∨ w.calculateSHA256 rel ≠ .ok expected) :
    ∃ msg, (validateChecksumEntries w entries).1 = .error msg := by
  induction entries with
  | nil => simp at hmem
  | cons hd rest ih =>
    obtain ⟨r0, e0⟩ := hd
    rw [List.mem_cons] at hmem
    rw [validateChecksumEntries]
    rcases hmem with heq | hmem
    · injection heq with h1 h2
      subst h1
      subst h2
      rw [if_neg (by simpa using hrel)]
      cases hstat : w.statAt rel with
      | ok =>
        rcases hbad with hb | hb
        · exact absurd hstat hb
        · cases hsha : w.calculateSHA256 rel with
          | error e => exact ⟨_, rfl⟩
          | ok sum =>
            have hsne : (sum == expected) = false := by
              rcases hbe : sum == expected with _ | _
              · rfl
              · exact absurd (hsha.trans (by rw [eq_of_beq hbe])) hb
            exact ⟨"checksum mismatch for " ++ rel ++ ": expected " ++
              expected ++ ", got " ++ sum, by simp [hsne]⟩
      | enoent => exact ⟨_, rfl⟩
      | fail e => exact ⟨_, rfl⟩
    · by_cases hp : (r0 == "prefect.dump") = true
      · rw [if_pos hp]
        exact ih hmem
      · rw [if_neg hp]
        cases hstat : w.statAt r0 with
        | ok =>
          cases hsha : w.calculateSHA256 r0 with
          | error e => exact ⟨_, rfl⟩
          | ok sum =>
            by_cases hs : (sum == e0) = true
            · obtain ⟨msg, hmsg⟩ := ih hmem
              exact ⟨msg, by simp [hs, hmsg]⟩
            · exact ⟨"checksum mismatch for " ++ r0 ++ ": expected " ++
                e0 ++ ", got " ++ sum, by simp [hs]⟩
        | enoent => exact ⟨_, rfl⟩
        | fail e => exact ⟨_, rfl⟩

/-- The checksum-validation loop never touches the workflow-store dump: its
key is skipped, so its digest is never computed there. -/
theorem validateChecksumEntries_no_prefect (w : RestoreWorld)
    (entries : List (String × String)) :
    REvent.calcSha "prefect.dump" ∉ (validateChecksumEntries w entries).2 := by
  induction entries with
  | nil => simp [validateChecksumEntries]
  | cons hd rest ih =>
    obtain ⟨rel, expected⟩ := hd
    intro hmem
    rw [validateChecksumEntries] at hmem
    split at hmem
    · exact ih hmem
    · rename_i hp
      have hne : rel ≠ "prefect.dump" := by
        intro h
        exact hp (by simp [h])
      split at hmem
      · split at hmem
        · simp at hmem
          exact hne hmem.symm
        · split at hmem
          · simp at hmem
            rcases hmem with h | h
            · exact hne h.symm
            · exact ih h
          · simp at hmem
            exact hne hmem.symm
      · simp at hmem

/-- The tail of the restore after PostgreSQL adds no digest computation. -/
theorem restoreAfterPG_calcSha (w : RestoreWorld) (ed : String) (mig : Bool)
    (tr : List REvent) (r : String)
    (h : REvent.calcSha r ∈ (restoreAfterPG w ed mig tr).2) :
    REvent.calcSha r ∈ tr := by
  rw [restoreAfterPG] at h
  split at h <;> try split at h
  all_goals first
    | (simp at h; exact h)
    | (split at h <;> simp at h <;> exact h)

/-- The destructive phase of the restore adds no digest computation. -/
theorem restoreDestructivePhase_calcSha (w : RestoreWorld) (ed : String)
    (vp mig : Bool) (tr : List REvent) (r : String)
    (h : REvent.calcSha r ∈ (restoreDestructivePhase w ed vp mig tr).2) :
    REvent.calcSha r ∈ tr := by
  rw [restoreDestructivePhase] at h
  split at h
  · simp at h
    exact h
  · split at h
    · split at h
      · simp at h
        exact h
      · have := restoreAfterPG_calcSha w ed mig _ r h
        simp at this
        exact this
    · have := restoreAfterPG_calcSha w ed mig _ r h
      simp at this
      exact this

/-! ## Restore claims -/

/-- C1: when the backup metadata records the enterprise edition and live
detection succeeds returning community, RestoreBackup fails with the
incompatibility error immediately after edition reconciliation — the trace
holds only the archive extraction, so no destructive step (transient-data
wipe, application stop, or database restore command) has run. -/
theorem restore_enterprise_backup_on_community_fails_before_destructive
    (w : RestoreWorld) (md : BackupMetadata) (excl mig : Bool) (d : String)
    (hfile : w.backupFileExists = true)
    (hpre : w.checkPrerequisites = .ok ())
    (henv : w.detectEnvironment = .ok ())
    (htmp : w.mkdirTemp = .ok ())
    (hext : w.extractTarball = .ok ())
    (hmdf : w.metadataFileExists = true)
    (hmdr : w.readMetadataFile = .ok ())
    (hparse : w.parseMetadata = .ok md)
    (hed : goToLower md.neo4jEdition = neo4jEditionEnterprise)
    (hdet : w.detectNeo4jEdition = .ok d)
    (hdl : goToLower d = neo4jEditionCommunity) :
    RestoreBackup w excl mig =
      (.error "cannot restore Enterprise backup on Community edition Neo4j",
        [REvent.extract]) ∧
    ∀ ev ∈ (RestoreBackup w excl mig).2, ev.destructive = false := by
  have hres : resolveRestoreEdition md.neo4jEdition w.detectNeo4jEdition =
      .error "cannot restore Enterprise backup on Community edition Neo4j" := by
    rw [resolveRestoreEdition.eq_def, hdet]
    simp [hed, hdl, neo4jEditionCommunity, neo4jEditionEnterprise]
  have heq : RestoreBackup w excl mig =
      (.error "cannot restore Enterprise backup on Community edition Neo4j",
        [REvent.extract]) := by
    rw [RestoreBackup]
    simp [hfile, hpre, henv, htmp, hext, hmdf, hmdr, hparse, hres]
  refine ⟨heq, ?_⟩
  rw [heq]
  intro ev hev
  simp at hev
  subst hev
  rfl

/-- Witness for C1 at a concrete world: metadata records "Enterprise", live
detection returns "Community", and every preliminary step succeeds. -/
def c1Metadata : BackupMetadata :=
  { backupID := "infrahub_backup_20260112_123045"
    createdAt := "2026-01-12T12:30:45Z"
    toolVersion := "0.1.0"
    infrahubVersion := "1.0.0"
    neo4jEdition := "Enterprise"
    components := ["database", "task-manager-db"]
    checksums := [("database/neo4j.backup", "aa"), ("prefect.dump", "bb")] }

/-- Concrete restore world for the C1 witness. -/
def c1World : RestoreWorld :=
  { backupFileExists := true
    checkPrerequisites := .ok ()
    detectEnvironment := .ok ()
    mkdirTemp := .ok ()
    extractTarball := .ok ()
    metadataFileExists := true
    readMetadataFile := .ok ()
    parseMetadata := .ok c1Metadata
    detectNeo4jEdition := .ok "Community"
    statAt := fun _ => GoStat.ok
    calculateSHA256 := fun p => if p == "prefect.dump" then .ok "bb" else .ok "aa"
    stopAppContainers := .ok ()
    restorePostgreSQL := .ok ()
    restartDependencies := .ok ()
    restoreNeo4j := fun _ _ => .ok ()
    startServices := .ok () }

/-- C1 witness: the theorem applied at `c1World`. -/
theorem restore_enterprise_backup_on_community_fails_before_destructive_witness :
    RestoreBackup c1World false false =
      (.error "cannot restore Enterprise backup on Community edition Neo4j",
        [REvent.extract]) ∧
    ∀ ev ∈ (RestoreBackup c1World false false).2, ev.destructive = false :=
  restore_enterprise_backup_on_community_fails_before_destructive
    c1World c1Metadata false false "Community" rfl rfl rfl rfl rfl rfl rfl rfl
    (by decide) rfl (by decide)

/-- Helper: an empty trace contains no destructive event. -/
theorem noDestructive_nil : ∀ ev ∈ ([] : List REvent), ev.destructive = false := by
  intro ev hev
  simp at hev

/-- Helper: a trace holding only the extraction contains no destructive
event. -/
theorem noDestructive_extract :
    ∀ ev ∈ [REvent.extract], ev.destructive = false := by
  intro ev hev
  simp at hev
  subst hev
  rfl

/-- C2: if any non-workflow-dump entry of the metadata checksum map names a
file that is missing or whose recomputed digest is not the recorded one,
RestoreBackup returns an error and its trace contains no destructive step —
transient data is not wiped, application containers are not stopped, and no
restore command runs. -/
theorem restore_checksum_gate_blocks_destructive
    (w : RestoreWorld) (md : BackupMetadata) (excl mig : Bool)
    (rel expected : String)
    (hparse : w.parseMetadata = .ok md)
    (hmem : (rel, expected) ∈ md.checksums)
    (hrel : rel ≠ "prefect.dump")
    (hbad : w.statAt rel ≠ GoStat.ok ∨ w.calculateSHA256 rel ≠ .ok expected) :
    (∃ msg, (RestoreBackup w excl mig).1 = .error msg) ∧
    ∀ ev ∈ (RestoreBackup w excl mig).2, ev.destructive = false := by
  obtain ⟨vmsg, hv⟩ :=
    validateChecksumEntries_error_of_bad w md.checksums rel expected hmem hrel hbad
  have htr := validateChecksumEntries_trace w md.checksums
  rw [RestoreBackup]
  split
  · exact ⟨⟨_, rfl⟩, noDestructive_nil⟩
  · split
    · exact ⟨⟨_, rfl⟩, noDestructive_nil⟩
    · split
      · exact ⟨⟨_, rfl⟩, noDestructive_nil⟩
      · split
        · exact ⟨⟨_, rfl⟩, noDestructive_nil⟩
        · split
          · exact ⟨⟨_, rfl⟩, noDestructive_extract⟩
          · split
            · exact ⟨⟨_, rfl⟩, noDestructive_extract⟩
            · split
              · exact ⟨⟨_, rfl⟩, noDestructive_extract⟩
              · split
                · exact ⟨⟨_, rfl⟩, noDestructive_extract⟩
                · rename_i metadata hpm
                  have hmd : metadata = md := by
                    have h2 := hparse.symm.trans hpm
                    injection h2 with h3
                    exact h3.symm
                  subst hmd
                  split
                  · exact ⟨⟨_, rfl⟩, noDestructive_extract⟩
                  · split
                    · rename_i e t hvc
                      refine ⟨⟨e, rfl⟩, ?_⟩
                      intro ev hev
                      simp at hev
                      rcases hev with h | h
                      · subst h
                        rfl
                      · obtain ⟨r, hr⟩ := htr ev (by rw [hvc]; exact h)
                        subst hr
                        rfl
                    · rename_i u t0 hvc
                      rw [hvc] at hv
                      simp at hv

/-- Concrete metadata for the C2 witness: one database entry whose recorded
digest will not match the recomputed one. -/
def c2Metadata : BackupMetadata :=
  { backupID := "infrahub_backup_20260112_123045"
    createdAt := "2026-01-12T12:30:45Z"
    toolVersion := "0.1.0"
    infrahubVersion := "1.0.0"
    neo4jEdition := "community"
    components := ["database"]
    checksums := [("database/neo4j.dump", "aa")] }

/-- Concrete restore world for the C2 witness: the file is present but its
digest recomputes to a different value. -/
def c2World : RestoreWorld :=
  { backupFileExists := true
    checkPrerequisites := .ok ()
    detectEnvironment := .ok ()
    mkdirTemp := .ok ()
    extractTarball := .ok ()
    metadataFileExists := true
    readMetadataFile := .ok ()
    parseMetadata := .ok c2Metadata
    detectNeo4jEdition := .ok "community"
    statAt := fun _ => GoStat.ok
    calculateSHA256 := fun _ => .ok "bb"
    stopAppContainers := .ok ()
    restorePostgreSQL := .ok ()
    restartDependencies := .ok ()
    restoreNeo4j := fun _ _ => .ok ()
    startServices := .ok () }

/-- C2 witness: the theorem applied at `c2World`, where the recorded digest
"aa" differs from the recomputed "bb". -/
theorem restore_checksum_gate_blocks_destructive_witness :
    (∃ msg, (RestoreBackup c2World false false).1 = .error msg) ∧
    ∀ ev ∈ (RestoreBackup c2World false false).2, ev.destructive = false :=
  restore_checksum_gate_blocks_destructive c2World c2Metadata false false
    "database/neo4j.dump" "aa" rfl (by decide) (by decide)
    (Or.inr (by simp [c2World]))

/-- C9: with excludeTaskManager set, RestoreBackup never computes (hence
never compares) the workflow-store dump checksum: no digest event for
"prefect.dump" appears in any trace, even when the dump file exists and the
metadata records a digest for it. -/
theorem restore_exclude_task_manager_skips_prefect_validation
    (w : RestoreWorld) (mig : Bool) :
    REvent.calcSha "prefect.dump" ∉ (RestoreBackup w true mig).2 := by
  intro hmem
  rw [RestoreBackup] at hmem
  split at hmem
  · simp at hmem
  · split at hmem
    · simp at hmem
    · split at hmem
      · simp at hmem
      · split at hmem
        · simp at hmem
        · split at hmem
          · simp at hmem
          · split at hmem
            · simp at hmem
            · split at hmem
              · simp at hmem
              · split at hmem
                · simp at hmem
                · rename_i metadata hpm
                  split at hmem
                  · simp at hmem
                  · split at hmem
                    · rename_i e t hvc
                      simp at hmem
                      have := validateChecksumEntries_no_prefect w metadata.checksums
                      rw [hvc] at this
                      simp at this
                      exact this hmem
                    · rename_i u t0 hvc
                      simp only [Bool.not_true, Bool.and_false, Bool.false_and] at hmem
                      split at hmem
                      · simp at hmem
                        have := validateChecksumEntries_no_prefect w metadata.checksums
                        rw [hvc] at this
                        simp at this
                        exact this hmem
                      · simp at hmem
                        have hph := restoreDestructivePhase_calcSha w _ _ mig _ _ hmem
                        simp at hph
                        have := validateChecksumEntries_no_prefect w metadata.checksums
                        rw [hvc] at this
                        simp at this
                        exact this hph

/-- Concrete restore world for the C9 witness: the dump file exists and the
metadata records a digest for it (which would not match), yet exclusion
skips its validation entirely. -/
def c9World : RestoreWorld :=
  { backupFileExists := true
    checkPrerequisites := .ok ()
    detectEnvironment := .ok ()
    mkdirTemp := .ok ()
    extractTarball := .ok ()
    metadataFileExists := true
    readMetadataFile := .ok ()
    parseMetadata := .ok
      { backupID := "b", createdAt := "t", toolVersion := "0.1.0"
        infrahubVersion := "1.0.0", neo4jEdition := "community"
        components := ["database", "task-manager-db"]
        checksums := [("database/neo4j.dump", "aa"), ("prefect.dump", "bb")] }
    detectNeo4jEdition := .ok "community"
    statAt := fun _ => GoStat.ok
    calculateSHA256 := fun _ => .ok "aa"
    stopAppContainers := .ok ()
    restorePostgreSQL := .ok ()
    restartDependencies := .ok ()
    restoreNeo4j := fun _ _ => .ok ()
    startServices := .ok () }

/-- C9 witness: the theorem applied at `c9World`. -/
theorem restore_exclude_task_manager_skips_prefect_validation_witness :
    REvent.calcSha "prefect.dump" ∉ (RestoreBackup c9World true false).2 :=
  restore_exclude_task_manager_skips_prefect_validation c9World false

/-! ## CreateBackup (S3_BACKUP.md embedded source; the checksum phase is the
body of the factored `calculateBackupChecksums` helper called by backup.go) -/

/-- Outcomes of every effectful call CreateBackup makes.
`stopAppContainers` returns the already-stopped services together with an
optional error, as in the source.  `walkDatabaseDir` is the result of
`filepath.Walk` over the database backup subtree: either the error delivered
to the walk callback, or the relative paths (under the backup root, so each
begins with "database/") of the regular files visited. -/
structure BackupWorld where
  checkPrerequisites : Except String Unit
  detectEnvironment : Except String Unit
  detectNeo4jEdition : Except String String
  waitForRunningTasks : Except String Unit
  stopAppContainers : List String × Option String
  startAppContainers : List String → Except String Unit
  mkdirTemp : Except String Unit
  mkBackupDir : Except String Unit
  mkParentDir : Except String Unit
  backupDatabase : String → Except String Unit
  backupTaskManagerDB : Except String Unit
  walkDatabaseDir : Except String (List String)
  calculateSHA256 : String → Except String String
  prefectStat : GoStat
  writeMetadataFile : Except String Unit
  createTarball : Except String Unit

/-- The per-file digest pass of the database-subtree walk.  A file whose
digest computation succeeds is recorded; a file whose digest computation
fails is skipped and recorded nowhere — the source checks
`if sum, err := calculateSHA256(path); err == nil` and has no else branch,
so such an error never propagates. -/
def databaseChecksums (w : BackupWorld) (files : List String) :
    List (String × String) :=
  files.filterMap fun rel =>
    match w.calculateSHA256 rel with
    | .ok sum => some (rel, sum)
    | .error _ => none

/-- The workflow-store dump part of the checksum phase, reached only when
the task manager is not excluded: a present dump must digest successfully
(failure aborts), a not-exist stat result is silently tolerated, and any
other stat failure aborts. -/
def addPrefectChecksum (w : BackupWorld) (checksums : List (String × String)) :
    Except String (List (String × String)) :=
  match w.prefectStat with
  | GoStat.ok =>
    match w.calculateSHA256 "prefect.dump" with
    | .ok sum => .ok (checksums ++ [("prefect.dump", sum)])
    | .error e => .error ("failed to calculate Prefect DB checksum: " ++ e)
  | GoStat.enoent => .ok checksums
  | GoStat.fail e => .error ("could not access Prefect DB dump: " ++ e)

/-- CreateBackup, translated from the source.  The returned value on success
is the checksum manifest written into `backup_information.json` (the Go
function's observable output besides its error).  The community-edition
branch stops the application containers first and re-starts them via a
deferred cleanup whose failure becomes the returned error only when the
backup itself succeeded. -/
def CreateBackup (w : BackupWorld) (force excludeTaskManager : Bool) :
    Except String (List (String × String)) :=
  match w.checkPrerequisites with
  | .error e => .error e
  | .ok _ =>
  match w.detectEnvironment with
  | .error e => .error e
  | .ok _ =>
  let edition := match w.detectNeo4jEdition with
    | .error _ => ""
    | .ok ed => ed
  let isCommunityEdition := goEqualFold edition neo4jEditionCommunity
  match (if force then (.ok () : Except String Unit) else w.waitForRunningTasks) with
  | .error e => .error e
  | .ok _ =>
  match (if isCommunityEdition then
           (match w.stopAppContainers with
            | (_, some stopErr) =>
              .error ("failed to stop services for Neo4j Community backup: " ++ stopErr)
            | (stopped, none) => .ok stopped : Except String (List String))
         else .ok []) with
  | .error e => .error e
  | .ok servicesToRestart =>
  match w.mkdirTemp with
  | .error e => .error ("failed to create temp directory: " ++ e)
  | .ok _ =>
  match w.mkBackupDir with
  | .error e => .error ("failed to create backup directory: " ++ e)
  | .ok _ =>
  match w.mkParentDir with
  | .error e => .error ("failed to create backup parent directory: " ++ e)
  | .ok _ =>
  match w.backupDatabase edition with
  | .error e => .error e
  | .ok _ =>
  match (if excludeTaskManager then (.ok () : Except String Unit)
         else w.backupTaskManagerDB) with
  | .error e => .error e
  | .ok _ =>
  match w.walkDatabaseDir with
  | .error e => .error ("failed to calculate Neo4j backup checksums: " ++ e)
  | .ok files =>
  let checksums := databaseChecksums w files
  match (if excludeTaskManager then (.ok checksums : Except String (List (String × String)))
         else addPrefectChecksum w checksums) with
  | .error e => .error e
  | .ok checksums2 =>
  match w.writeMetadataFile with
  | .error e => .error ("failed to write metadata: " ++ e)
  | .ok _ =>
  match w.createTarball with
  | .error e => .error ("failed to create archive: " ++ e)
  | .ok _ =>
  if isCommunityEdition && !servicesToRestart.isEmpty then
    match w.startAppContainers servicesToRestart with
    | .error e => .error ("failed to restart services after backup: " ++ e)
    | .ok _ => .ok checksums2
  else .ok checksums2

/-! ## CreateBackup claims -/

/-- Concrete backup world for C5: the walk visits one file under the
database subtree and its digest computation fails (unreadable content with
a successful stat). -/
def c5World : BackupWorld :=
  { checkPrerequisites := .ok ()
    detectEnvironment := .ok ()
    detectNeo4jEdition := .ok "enterprise"
    waitForRunningTasks := .ok ()
    stopAppContainers := ([], none)
    startAppContainers := fun _ => .ok ()
    mkdirTemp := .ok ()
    mkBackupDir := .ok ()
    mkParentDir := .ok ()
    backupDatabase := fun _ => .ok ()
    backupTaskManagerDB := .ok ()
    walkDatabaseDir := .ok ["database/neo4j.dump"]
    calculateSHA256 := fun _ => .error "permission denied"
    prefectStat := GoStat.enoent
    writeMetadataFile := .ok ()
    createTarball := .ok () }

/-- C5: evaluation of CreateBackup at the failing input.  The digest of the
only file under the database subtree fails to compute, yet CreateBackup
returns success and the manifest is empty — the file was silently omitted,
where the spec requires the whole backup to abort. -/
theorem create_backup_silently_omits_unreadable_file :
    c5World.walkDatabaseDir = .ok ["database/neo4j.dump"] ∧
    c5World.calculateSHA256 "database/neo4j.dump" = .error "permission denied" ∧
    CreateBackup c5World true true = .ok [] :=
  ⟨rfl, rfl, rfl⟩

/-- Concrete backup world for C6: the workflow-store dump is absent at
checksum-computation time (stat yields not-exist) and exclusion is NOT
requested. -/
def c6World : BackupWorld :=
  { checkPrerequisites := .ok ()
    detectEnvironment := .ok ()
    detectNeo4jEdition := .ok "enterprise"
    waitForRunningTasks := .ok ()
    stopAppContainers := ([], none)
    startAppContainers := fun _ => .ok ()
    mkdirTemp := .ok ()
    mkBackupDir := .ok ()
    mkParentDir := .ok ()
    backupDatabase := fun _ => .ok ()
    backupTaskManagerDB := .ok ()
    walkDatabaseDir := .ok ["database/neo4j.dump"]
    calculateSHA256 := fun _ => .ok "aa"
    prefectStat := GoStat.enoent
    writeMetadataFile := .ok ()
    createTarball := .ok () }

/-- C6 counterexample: with the task manager NOT excluded and the
workflow-store dump absent at checksum-computation time, CreateBackup
returns success (the explicit `errors.Is(err, os.ErrNotExist)` check
tolerates the absence) — refuting the claim that this is a hard error. -/
theorem create_backup_tolerates_absent_prefect_dump_counterexample :
    c6World.prefectStat = GoStat.enoent ∧
    CreateBackup c6World true false = .ok [("database/neo4j.dump", "aa")] :=
  ⟨rfl, rfl⟩

/-- C6 (amended): the absence of the workflow-store dump at
checksum-computation time causes no error whether or not exclusion is
requested — its checksum entry is simply omitted; only a stat failure other
than not-exist (or a digest failure on a present dump) aborts the backup. -/
theorem create_backup_absent_prefect_dump_not_an_error
    (w : BackupWorld) (force excl : Bool) (files : List String)
    (hpre : w.checkPrerequisites = .ok ())
    (henv : w.detectEnvironment = .ok ())
    (hed : w.detectNeo4jEdition = .ok "enterprise")
    (htask : w.waitForRunningTasks = .ok ())
    (htmp : w.mkdirTemp = .ok ())
    (hbd : w.mkBackupDir = .ok ())
    (hpd : w.mkParentDir = .ok ())
    (hdb : w.backupDatabase "enterprise" = .ok ())
    (htm : w.backupTaskManagerDB = .ok ())
    (hwalk : w.walkDatabaseDir = .ok files)
    (hwm : w.writeMetadataFile = .ok ())
    (htb : w.createTarball = .ok ())
    (henoent : w.prefectStat = GoStat.enoent) :
    CreateBackup w force excl = .ok (databaseChecksums w files) := by
  have hcomm : goEqualFold "enterprise" neo4jEditionCommunity = false := by decide
  rw [CreateBackup]
  cases force <;> cases excl <;>
    simp [hpre, henv, hed, htask, htmp, hbd, hpd, hdb, htm, hwalk, hwm, htb,
      addPrefectChecksum, henoent, hcomm]

/-- C6 amended-claim witness: at `c6World` (dump absent, not excluded) the
backup succeeds with the database-only manifest. -/
theorem create_backup_absent_prefect_dump_not_an_error_witness :
    CreateBackup c6World false false =
      .ok (databaseChecksums c6World ["database/neo4j.dump"]) :=
  create_backup_absent_prefect_dump_not_an_error c6World false false
    ["database/neo4j.dump"] rfl rfl rfl rfl rfl rfl rfl rfl rfl rfl rfl rfl rfl

/-! ## Neo4j community backup/restore (backup_neo4j.go) -/

/-- Watchdog readiness timeout, seconds (`neo4jWatchdogInitTimeout = 5 *
time.Second`). -/
def neo4jWatchdogInitTimeout : Nat := 5

/-- Process-stop confirmation timeout, seconds (`neo4jProcessStopTimeout =
120 * time.Second`). -/
def neo4jProcessStopTimeout : Nat := 120

/-- `neo4jTempBackupDir` constant from backup_neo4j.go. -/
def neo4jTempBackupDir : String := "/tmp/infrahubops"

/-- Remote work directory; the constant's definition is outside the embedded
files, so the value is a placeholder — no theorem depends on it. -/
def neo4jRemoteWorkDir : String := "/tmp/infrahubops/work"

/-- Remote watchdog binary path; placeholder value, as above. -/
def neo4jRemoteWatchdogBinary : String := "/tmp/infrahubops/watchdog"

/-- Remote watchdog readiness marker path; placeholder value, as above. -/
def neo4jRemoteWatchdogReady : String := "/tmp/infrahubops/watchdog.ready"

/-- Remote watchdog log path; placeholder value, as above. -/
def neo4jRemoteWatchdogLog : String := "/tmp/infrahubops/watchdog.log"

/-- Neo4j PID file path; placeholder value, as above. -/
def neo4jPIDFile : String := "/var/lib/neo4j/run/neo4j.pid"

/-- The detached watchdog launch command built by `fmt.Sprintf` in
stopNeo4jCommunity. -/
def neo4jWatchdogCommand : String :=
  "nohup " ++ neo4jRemoteWatchdogBinary ++ " --ready-file " ++
    neo4jRemoteWatchdogReady ++ " >" ++ neo4jRemoteWatchdogLog ++ " 2>&1 &"

/-- Externally visible actions of the community backup/restore helpers:
remote command executions (with their argument vectors), file copies, a
local directory creation, and log emissions at each severity the source
uses. -/
inductive NEvent where
  | exec (args : List String)
  | copyTo
  | copyFrom
  | mkdirLocal
  | logError (msg : String)
  | logWarn (msg : String)
  | logDebug (msg : String)
deriving DecidableEq, Repr

/-- Outcomes of every effectful call the community backup/restore path
makes, one field per call site.  `waitForRemoteFile` and
`waitForProcessStopped` take the polled path / PID and the timeout in
seconds, as at their call sites. -/
structure NeoWorld where
  neo4jDatabase : String
  execCatPid : Except String String
  stopMkdirWork : Except String Unit
  execUname : Except String String
  selectWatchdogBinary : String → Except String Unit
  writeEmbeddedWatchdog : Except String Unit
  copyWatchdog : Except String Unit
  execChmod : Except String Unit
  execClearMarkers : Except String Unit
  execStartWatchdog : Except String Unit
  waitForRemoteFile : String → Nat → Except String Unit
  execKillStop : Except String Unit
  waitForProcessStopped : String → Nat → Except String Unit
  execBackupMkdirWork : Except String Unit
  mkdirLocalDatabaseDir : Except String Unit
  execDump : Except String Unit
  copyDumpFrom : Except String Unit
  execRmArtifactsB : Except String Unit
  execKillContB : Except String Unit
  execLoad : Except String Unit
  execMigrate : Except String Unit
  execRmTempR : Except String Unit
  execRmArtifactsR : Except String Unit
  execKillContR : Except String Unit

/-- readNeo4jPID: cat the PID file, trim the output, reject empty content,
reject content `strconv.Atoi` cannot parse, and return the trimmed PID
string. -/
def readNeo4jPID (w : NeoWorld) : Except String String × List NEvent :=
  let t := [NEvent.exec ["cat", neo4jPIDFile]]
  match w.execCatPid with
  | .error e => (.error ("failed to read neo4j pid file: " ++ e), t)
  | .ok output =>
    let pid := goTrimSpace output
    if pid == "" then (.error "neo4j pid file is empty", t)
    else
      match goAtoi pid with
      | none => (.error ("invalid pid \x22" ++ pid ++ "\x22"), t)
      | some _ => (.ok pid, t)

/-- stopNeo4jCommunity: prepare the remote work directory, detect the
architecture, deploy and launch the watchdog, wait for its readiness marker
(5-second timeout), send the stop signal to the PID, and wait (120-second
timeout) until the process is confirmed stopped. -/
def stopNeo4jCommunity (w : NeoWorld) (pidStr : String) :
    Except String Unit × List NEvent :=
  let t0 := [NEvent.exec ["mkdir", "-p", neo4jRemoteWorkDir]]
  match w.stopMkdirWork with
  | .error e => (.error ("failed to prepare remote work directory: " ++ e), t0)
  | .ok _ =>
  match w.execUname with
  | .error e =>
    (.error ("failed to detect neo4j architecture: " ++ e),
      t0 ++ [NEvent.exec ["uname", "-m"]])
  | .ok out =>
  let t1 := t0 ++ [NEvent.exec ["uname", "-m"]]
  let arch := goTrimSpace out
  if arch == "" then (.error "empty architecture string", t1)
  else
  match w.selectWatchdogBinary arch with
  | .error e => (.error e, t1)
  | .ok _ =>
  match w.writeEmbeddedWatchdog with
  | .error e => (.error e, t1)
  | .ok _ =>
  match w.copyWatchdog with
  | .error e =>
    (.error ("failed to deploy watchdog binary: " ++ e), t1 ++ [NEvent.copyTo])
  | .ok _ =>
  let t2 := t1 ++ [NEvent.copyTo]
  match w.execChmod with
  | .error e =>
    (.error ("failed to mark watchdog executable: " ++ e),
      t2 ++ [NEvent.exec ["chmod", "+x", neo4jRemoteWatchdogBinary]])
  | .ok _ =>
  let t3 := t2 ++ [NEvent.exec ["chmod", "+x", neo4jRemoteWatchdogBinary],
    NEvent.exec ["rm", "-f", neo4jRemoteWatchdogReady, neo4jRemoteWatchdogLog]]
  let t4 := match w.execClearMarkers with
    | .error e => t3 ++ [NEvent.logDebug ("Could not clear watchdog markers: " ++ e)]
    | .ok _ => t3
  match w.execStartWatchdog with
  | .error e =>
    (.error ("failed to start watchdog: " ++ e),
      t4 ++ [NEvent.exec ["sh", "-c", neo4jWatchdogCommand]])
  | .ok _ =>
  let t5 := t4 ++ [NEvent.exec ["sh", "-c", neo4jWatchdogCommand]]
  match w.waitForRemoteFile neo4jRemoteWatchdogReady neo4jWatchdogInitTimeout with
  | .error e => (.error ("watchdog failed to initialize: " ++ e), t5)
  | .ok _ =>
  match w.execKillStop with
  | .error e =>
    (.error ("failed to stop neo4j: " ++ e), t5 ++ [NEvent.exec ["kill", pidStr]])
  | .ok _ =>
  let t6 := t5 ++ [NEvent.exec ["kill", pidStr]]
  match w.waitForProcessStopped pidStr neo4jProcessStopTimeout with
  | .error e => (.error e, t6)
  | .ok _ => (.ok (), t6)

/-- The neo4j-admin dump command run by backupNeo4jCommunity. -/
def neo4jDumpCommand (w : NeoWorld) : List NEvent :=
  [NEvent.exec ["neo4j-admin", "database", "dump", "--overwrite-destination=true",
    "--to-path=" ++ neo4jRemoteWorkDir, w.neo4jDatabase]]

/-- The body of backupNeo4jCommunity after the database process has been
stopped: prepare the remote and local dump directories, run the offline
dump, and copy the dump file out. -/
def backupNeo4jBody (w : NeoWorld) : Except String Unit × List NEvent :=
  let t0 := [NEvent.exec ["mkdir", "-p", neo4jRemoteWorkDir]]
  match w.execBackupMkdirWork with
  | .error e => (.error ("failed to prepare remote dump directory: " ++ e), t0)
  | .ok _ =>
  match w.mkdirLocalDatabaseDir with
  | .error e =>
    (.error ("failed to prepare local dump directory: " ++ e),
      t0 ++ [NEvent.mkdirLocal])
  | .ok _ =>
  let t1 := t0 ++ [NEvent.mkdirLocal]
  match w.execDump with
  | .error e =>
    (.error ("failed to dump neo4j database: " ++ e), t1 ++ neo4jDumpCommand w)
  | .ok _ =>
  let t2 := t1 ++ neo4jDumpCommand w
  match w.copyDumpFrom with
  | .error e => (.error ("failed to copy neo4j dump: " ++ e), t2 ++ [NEvent.copyFrom])
  | .ok _ => (.ok (), t2 ++ [NEvent.copyFrom])

/-- The deferred cleanup of backupNeo4jCommunity, installed right after the
stop sequence succeeds and run on every exit path: remove the watchdog
artifacts (failure only logged at debug), then send the continue signal to
the recorded PID; a continue failure is logged at error severity and becomes
the returned error only when no earlier error exists. -/
def backupNeo4jDefer (w : NeoWorld) (pidStr : String) (r : Except String Unit) :
    Except String Unit × List NEvent :=
  let t0 := [NEvent.exec ["rm", "-f", neo4jRemoteWatchdogBinary,
    neo4jRemoteWatchdogReady, neo4jRemoteWatchdogLog]]
  let t1 := match w.execRmArtifactsB with
    | .error e => t0 ++ [NEvent.logDebug ("Failed to remove watchdog artifacts: " ++ e)]
    | .ok _ => t0
  match w.execKillContB with
  | .ok _ => (r, t1 ++ [NEvent.exec ["kill", "-CONT", pidStr]])
  | .error e =>
    let t2 := t1 ++ [NEvent.exec ["kill", "-CONT", pidStr],
      NEvent.logError ("Failed to send SIGCONT to neo4j (pid " ++ pidStr ++ "): " ++ e)]
    match r with
    | .ok _ => (.error ("failed to resume neo4j process: " ++ e), t2)
    | .error e0 => (.error e0, t2)

/-- backupNeo4jCommunity: read and validate the PID, run the watchdog-gated
stop sequence, and only then install the resume cleanup and perform the
offline dump. -/
def backupNeo4jCommunity (w : NeoWorld) : Except String Unit × List NEvent :=
  match readNeo4jPID w with
  | (.error e, t) => (.error e, t)
  | (.ok pidStr, tp) =>
    match stopNeo4jCommunity w pidStr with
    | (.error e, ts) => (.error e, tp ++ ts)
    | (.ok _, ts) =>
      let body := backupNeo4jBody w
      let fin := backupNeo4jDefer w pidStr body.1
      (fin.1, tp ++ ts ++ body.2 ++ fin.2)

/-- The neo4j-admin load command run by restoreNeo4jCommunity. -/
def neo4jLoadCommand (w : NeoWorld) : List NEvent :=
  [NEvent.exec ["neo4j-admin", "database", "load", "--overwrite-destination=true",
    "--from-path=" ++ neo4jTempBackupDir, w.neo4jDatabase]]

/-- The body of restoreNeo4jCommunity after the database process has been
stopped: load the dump and optionally migrate the on-disk format. -/
def restoreNeo4jBody (w : NeoWorld) (restoreMigrateFormat : Bool) :
    Except String Unit × List NEvent :=
  match w.execLoad with
  | .error e => (.error ("failed to load neo4j dump: " ++ e), neo4jLoadCommand w)
  | .ok _ =>
  let t0 := neo4jLoadCommand w
  if restoreMigrateFormat then
    match w.execMigrate with
    | .error e =>
      (.error ("failed to migrate neo4j to block format: " ++ e),
        t0 ++ [NEvent.exec ["neo4j-admin", "database", "migrate",
          "--to-format=block", w.neo4jDatabase]])
    | .ok _ =>
      (.ok (), t0 ++ [NEvent.exec ["neo4j-admin", "database", "migrate",
        "--to-format=block", w.neo4jDatabase]])
  else (.ok (), t0)

/-- The deferred cleanup of restoreNeo4jCommunity: remove the temporary
backup data (failure only logged as a warning), remove the watchdog
artifacts (failure only logged at debug), then send the continue signal;
same first-error-wins aggregation as the backup cleanup. -/
def restoreNeo4jDefer (w : NeoWorld) (pidStr : String) (r : Except String Unit) :
    Except String Unit × List NEvent :=
  let t0 := [NEvent.exec ["rm", "-rf", neo4jTempBackupDir]]
  let t1 := match w.execRmTempR with
    | .error e =>
      t0 ++ [NEvent.logWarn ("Failed to cleanup temporary Neo4j backup data: " ++ e)]
    | .ok _ => t0
  let t2 := t1 ++ [NEvent.exec ["rm", "-f", neo4jRemoteWatchdogBinary,
    neo4jRemoteWatchdogReady, neo4jRemoteWatchdogLog]]
  let t3 := match w.execRmArtifactsR with
    | .error e => t2 ++ [NEvent.logDebug ("Failed to remove watchdog artifacts: " ++ e)]
    | .ok _ => t2
  match w.execKillContR with
  | .ok _ => (r, t3 ++ [NEvent.exec ["kill", "-CONT", pidStr]])
  | .error e =>
    let t4 := t3 ++ [NEvent.exec ["kill", "-CONT", pidStr],
      NEvent.logError ("Failed to send SIGCONT to neo4j (pid " ++ pidStr ++ "): " ++ e)]
    match r with
    | .ok _ => (.error ("failed to resume neo4j process: " ++ e), t4)
    | .error e0 => (.error e0, t4)

/-- restoreNeo4jCommunity: read and validate the PID, run the watchdog-gated
stop sequence, then install the resume cleanup and load the dump. -/
def restoreNeo4jCommunity (w : NeoWorld) (restoreMigrateFormat : Bool) :
    Except String Unit × List NEvent :=
  match readNeo4jPID w with
  | (.error e, t) => (.error e, t)
  | (.ok pidStr, tp) =>
    match stopNeo4jCommunity w pidStr with
    | (.error e, ts) => (.error e, tp ++ ts)
    | (.ok _, ts) =>
      let body := restoreNeo4jBody w restoreMigrateFormat
      let fin := restoreNeo4jDefer w pidStr body.1
      (fin.1, tp ++ ts ++ body.2 ++ fin.2)

/-! ## Neo4j community claims -/

/-- C4: if the watchdog readiness marker does not appear within the 5-second
timeout (the `waitForRemoteFile` call at that timeout fails),
stopNeo4jCommunity returns an error and the stop signal is never sent: no
`kill <pid>` execution appears in the trace. -/
theorem stop_sequence_watchdog_timeout_never_signals
    (w : NeoWorld) (pidStr e : String)
    (hwait : w.waitForRemoteFile neo4jRemoteWatchdogReady neo4jWatchdogInitTimeout
      = .error e) :
    (∃ msg, (stopNeo4jCommunity w pidStr).1 = .error msg) ∧
    NEvent.exec ["kill", pidStr] ∉ (stopNeo4jCommunity w pidStr).2 := by
  simp only [stopNeo4jCommunity, hwait]
  repeat' split
  all_goals exact ⟨⟨_, rfl⟩, by simp⟩

/-- Concrete world for the C4 witness: every step up to the readiness poll
succeeds, the poll times out. -/
def c4World : NeoWorld :=
  { neo4jDatabase := "neo4j"
    execCatPid := .ok "123"
    stopMkdirWork := .ok ()
    execUname := .ok "x86_64"
    selectWatchdogBinary := fun _ => .ok ()
    writeEmbeddedWatchdog := .ok ()
    copyWatchdog := .ok ()
    execChmod := .ok ()
    execClearMarkers := .ok ()
    execStartWatchdog := .ok ()
    waitForRemoteFile := fun _ _ => .error "timed out waiting for file"
    execKillStop := .ok ()
    waitForProcessStopped := fun _ _ => .ok ()
    execBackupMkdirWork := .ok ()
    mkdirLocalDatabaseDir := .ok ()
    execDump := .ok ()
    copyDumpFrom := .ok ()
    execRmArtifactsB := .ok ()
    execKillContB := .ok ()
    execLoad := .ok ()
    execMigrate := .ok ()
    execRmTempR := .ok ()
    execRmArtifactsR := .ok ()
    execKillContR := .ok () }

/-- C4 witness: the theorem applied at `c4World`. -/
theorem stop_sequence_watchdog_timeout_never_signals_witness :
    (∃ msg, (stopNeo4jCommunity c4World "123").1 = .error msg) ∧
    NEvent.exec ["kill", "123"] ∉ (stopNeo4jCommunity c4World "123").2 :=
  stop_sequence_watchdog_timeout_never_signals c4World "123"
    "timed out waiting for file" rfl

/-- C8: empty or malformed (non-integer) PID-file content makes readNeo4jPID
return an error; on that path backupNeo4jCommunity fails and its trace
contains no `kill` execution of any form — no signal is sent. -/
theorem read_pid_validation_blocks_signals
    (w : NeoWorld) (s : String)
    (hcat : w.execCatPid = .ok s)
    (hbad : goTrimSpace s = "" ∨ goAtoi (goTrimSpace s) = none) :
    (∃ msg, (readNeo4jPID w).1 = .error msg) ∧
    (∃ msg, (backupNeo4jCommunity w).1 = .error msg) ∧
    ∀ args, NEvent.exec args ∈ (backupNeo4jCommunity w).2 →
      args.head? ≠ some "kill" := by
  have hread : ∃ msg, readNeo4jPID w =
      (.error msg, [NEvent.exec ["cat", neo4jPIDFile]]) := by
    rcases hbad with hb | hb
    · exact ⟨"neo4j pid file is empty", by simp [readNeo4jPID, hcat, hb]⟩
    · by_cases hz : (goTrimSpace s == "") = true
      · exact ⟨"neo4j pid file is empty", by simp [readNeo4jPID, hcat, hz]⟩
      · exact ⟨"invalid pid \x22" ++ goTrimSpace s ++ "\x22",
          by simp [readNeo4jPID, hcat, hz, hb]⟩
  obtain ⟨msg, hr⟩ := hread
  have hbk : backupNeo4jCommunity w =
      (.error msg, [NEvent.exec ["cat", neo4jPIDFile]]) := by
    simp [backupNeo4jCommunity, hr]
  refine ⟨⟨msg, by rw [hr]⟩, ⟨msg, by rw [hbk]⟩, ?_⟩
  rw [hbk]
  intro args hargs
  simp at hargs
  subst hargs
  simp

/-- Concrete world for the C8 witness: the PID file holds garbage. -/
def c8World : NeoWorld :=
  { c4World with
    execCatPid := .ok "  not-a-pid  "
    waitForRemoteFile := fun _ _ => .ok () }

/-- C8 witness: the theorem applied at `c8World`. -/
theorem read_pid_validation_blocks_signals_witness :
    (∃ msg, (readNeo4jPID c8World).1 = .error msg) ∧
    (∃ msg, (backupNeo4jCommunity c8World).1 = .error msg) ∧
    ∀ args, NEvent.exec args ∈ (backupNeo4jCommunity c8World).2 →
      args.head? ≠ some "kill" :=
  read_pid_validation_blocks_signals c8World "  not-a-pid  " rfl
    (Or.inr (by decide))

/-- The backup cleanup always sends the continue signal, passes a success
result through unchanged when resuming succeeds, and on a resume failure
logs it and reports it only when no earlier error exists. -/
theorem backupNeo4jDefer_resume (w : NeoWorld) (p : String)
    (r : Except String Unit) :
    NEvent.exec ["kill", "-CONT", p] ∈ (backupNeo4jDefer w p r).2 ∧
    (∀ u, w.execKillContB = .ok u → (backupNeo4jDefer w p r).1 = r) ∧
    (∀ e, w.execKillContB = .error e →
      NEvent.logError ("Failed to send SIGCONT to neo4j (pid " ++ p ++ "): " ++ e)
        ∈ (backupNeo4jDefer w p r).2 ∧
      (r = .ok () → (backupNeo4jDefer w p r).1 =
        .error ("failed to resume neo4j process: " ++ e)) ∧
      (∀ e0, r = .error e0 → (backupNeo4jDefer w p r).1 = .error e0)) := by
  refine ⟨?_, ?_, ?_⟩
  · simp only [backupNeo4jDefer]
    cases hc : w.execKillContB <;> cases hm : w.execRmArtifactsB <;>
      cases r <;> simp
  · intro u hc
    simp [backupNeo4jDefer, hc]
  · intro e hc
    refine ⟨?_, ?_, ?_⟩
    · simp only [backupNeo4jDefer, hc]
      cases hm : w.execRmArtifactsB <;> cases r <;> simp
    · intro hr
      rw [hr]
      simp [backupNeo4jDefer, hc]
    · intro e0 hr
      rw [hr]
      simp [backupNeo4jDefer, hc]

/-- The restore cleanup: same resume guarantees as the backup cleanup. -/
theorem restoreNeo4jDefer_resume (w : NeoWorld) (p : String)
    (r : Except String Unit) :
    NEvent.exec ["kill", "-CONT", p] ∈ (restoreNeo4jDefer w p r).2 ∧
    (∀ u, w.execKillContR = .ok u → (restoreNeo4jDefer w p r).1 = r) ∧
    (∀ e, w.execKillContR = .error e →
      NEvent.logError ("Failed to send SIGCONT to neo4j (pid " ++ p ++ "): " ++ e)
        ∈ (restoreNeo4jDefer w p r).2 ∧
      (r = .ok () → (restoreNeo4jDefer w p r).1 =
        .error ("failed to resume neo4j process: " ++ e)) ∧
      (∀ e0, r = .error e0 → (restoreNeo4jDefer w p r).1 = .error e0)) := by
  refine ⟨?_, ?_, ?_⟩
  · simp only [restoreNeo4jDefer]
    cases hc : w.execKillContR <;> cases hm : w.execRmArtifactsR <;>
      cases hm2 : w.execRmTempR <;> cases r <;> simp
  · intro u hc
    simp [restoreNeo4jDefer, hc]
  · intro e hc
    refine ⟨?_, ?_, ?_⟩
    · simp only [restoreNeo4jDefer, hc]
      cases hm : w.execRmArtifactsR <;> cases hm2 : w.execRmTempR <;>
        cases r <;> simp
    · intro hr
      rw [hr]
      simp [restoreNeo4jDefer, hc]
    · intro e0 hr
      rw [hr]
      simp [restoreNeo4jDefer, hc]

/-- C3: for both the community backup and the community restore, once the
pause (stop sequence) has succeeded the continue signal is sent to the
recorded PID on every exit path; if sending it fails, the failure is logged
and becomes the operation's returned error only when the body succeeded,
while an earlier body error is preserved (first error wins). -/
theorem community_pause_always_resumed_first_error_wins
    (w : NeoWorld) (p : String) (mig : Bool)
    (hpid : (readNeo4jPID w).1 = .ok p)
    (hstop : (stopNeo4jCommunity w p).1 = .ok ()) :
    (NEvent.exec ["kill", "-CONT", p] ∈ (backupNeo4jCommunity w).2 ∧
     (∀ u, w.execKillContB = .ok u →
       (backupNeo4jCommunity w).1 = (backupNeo4jBody w).1) ∧
     (∀ e, w.execKillContB = .error e →
       NEvent.logError ("Failed to send SIGCONT to neo4j (pid " ++ p ++ "): " ++ e)
         ∈ (backupNeo4jCommunity w).2 ∧
       ((backupNeo4jBody w).1 = .ok () → (backupNeo4jCommunity w).1 =
         .error ("failed to resume neo4j process: " ++ e)) ∧
       (∀ e0, (backupNeo4jBody w).1 = .error e0 →
         (backupNeo4jCommunity w).1 = .error e0))) ∧
    (NEvent.exec ["kill", "-CONT", p] ∈ (restoreNeo4jCommunity w mig).2 ∧
     (∀ u, w.execKillContR = .ok u →
       (restoreNeo4jCommunity w mig).1 = (restoreNeo4jBody w mig).1) ∧
     (∀ e, w.execKillContR = .error e →
       NEvent.logError ("Failed to send SIGCONT to neo4j (pid " ++ p ++ "): " ++ e)
         ∈ (restoreNeo4jCommunity w mig).2 ∧
       ((restoreNeo4jBody w mig).1 = .ok () → (restoreNeo4jCommunity w mig).1 =
         .error ("failed to resume neo4j process: " ++ e)) ∧
       (∀ e0, (restoreNeo4jBody w mig).1 = .error e0 →
         (restoreNeo4jCommunity w mig).1 = .error e0))) := by
  rcases hrp : readNeo4jPID w with ⟨r1, t1⟩
  rw [hrp] at hpid
  simp at hpid
  subst hpid
  rcases hst : stopNeo4jCommunity w p with ⟨r2, t2⟩
  rw [hst] at hstop
  simp at hstop
  subst hstop
  have hbk : backupNeo4jCommunity w =
      ((backupNeo4jDefer w p (backupNeo4jBody w).1).1,
        t1 ++ t2 ++ (backupNeo4jBody w).2 ++
          (backupNeo4jDefer w p (backupNeo4jBody w).1).2) := by
    simp [backupNeo4jCommunity, hrp, hst]
  have hrs : restoreNeo4jCommunity w mig =
      ((restoreNeo4jDefer w p (restoreNeo4jBody w mig).1).1,
        t1 ++ t2 ++ (restoreNeo4jBody w mig).2 ++
          (restoreNeo4jDefer w p (restoreNeo4jBody w mig).1).2) := by
    simp [restoreNeo4jCommunity, hrp, hst]
  obtain ⟨hbA, hbB, hbC⟩ := backupNeo4jDefer_resume w p (backupNeo4jBody w).1
  obtain ⟨hrA, hrB, hrC⟩ := restoreNeo4jDefer_resume w p (restoreNeo4jBody w mig).1
  constructor
  · refine ⟨?_, ?_, ?_⟩
    · rw [hbk]
      simp only [List.mem_append]
      exact Or.inr hbA
    · intro u hc
      rw [hbk]
      exact hbB u hc
    · intro e hc
      obtain ⟨hlog, hok, herr⟩ := hbC e hc
      refine ⟨?_, ?_, ?_⟩
      · rw [hbk]
        simp only [List.mem_append]
        exact Or.inr hlog
      · intro hb
        rw [hbk]
        exact hok hb
      · intro e0 hb
        rw [hbk]
        exact herr e0 hb
  · refine ⟨?_, ?_, ?_⟩
    · rw [hrs]
      simp only [List.mem_append]
      exact Or.inr hrA
    · intro u hc
      rw [hrs]
      exact hrB u hc
    · intro e hc
      obtain ⟨hlog, hok, herr⟩ := hrC e hc
      refine ⟨?_, ?_, ?_⟩
      · rw [hrs]
        simp only [List.mem_append]
        exact Or.inr hlog
      · intro hb
        rw [hrs]
        exact hok hb
      · intro e0 hb
        rw [hrs]
        exact herr e0 hb

/-- Concrete world for the C3 witness: valid PID, successful stop sequence. -/
def c3World : NeoWorld :=
  { c4World with waitForRemoteFile := fun _ _ => .ok () }

/-- C3 witness: the theorem applied at `c3World` — the continue signal is in
the backup trace. -/
theorem community_pause_always_resumed_first_error_wins_witness :
    NEvent.exec ["kill", "-CONT", "123"] ∈ (backupNeo4jCommunity c3World).2 :=
  (community_pause_always_resumed_first_error_wins c3World "123" false
    rfl rfl).1.1

/-! ## KubernetesBackend (second embedded file of backup.go) -/

/-- Sentinel error returned when no deployment environment is discovered;
its definition lies outside the embedded files, so the message text is a
placeholder — theorems identify the error by this named constant. -/
def ErrEnvironmentNotFound : String := "environment not found"

/-- The namespace-resolution state of the Kubernetes backend: the
configured namespace (`config.K8sNamespace`) and the resolved one
(`k.namespace`; named `nsResolved` because `namespace` is a Lean keyword). -/
structure KubernetesBackend where
  k8sNamespace : String
  nsResolved : String
deriving DecidableEq, Repr

/-- Outcomes of the effectful calls Detect and IsRunning make:
the kubectl client check, the namespace discovery, the verification query
for an explicitly configured namespace, and the pod-status query
(`getPodStatuses`, whose successful result is the list of pod phases). -/
structure KWorld where
  kubectlVersion : Except String Unit
  listNamespaces : Except String (List String)
  verifyNamespace : String → Except String Unit
  getPodStatuses : String → Except String (List String)

/-- KubernetesBackend.Detect: verify the kubectl CLI, list candidate
namespaces, accept an explicitly configured namespace after verifying it,
and otherwise require auto-discovery to find exactly one candidate — zero
is the not-found sentinel, more than one is an ambiguity error joining all
candidates into the message. -/
def KubernetesBackend.Detect (w : KWorld) (k : KubernetesBackend) :
    Except String KubernetesBackend :=
  match w.kubectlVersion with
  | .error e => .error ("kubectl CLI not available: " ++ e)
  | .ok _ =>
  match w.listNamespaces with
  | .error e => .error e
  | .ok namespaces =>
    if k.k8sNamespace != "" then
      match w.verifyNamespace k.k8sNamespace with
      | .error e =>
        .error ("failed to verify namespace " ++ k.k8sNamespace ++ ": " ++ e)
      | .ok _ => .ok { k with nsResolved := k.k8sNamespace }
    else
      match namespaces with
      | [] => .error ErrEnvironmentNotFound
      | [n] => .ok { k8sNamespace := n, nsResolved := n }
      | a :: b :: rest =>
        .error ("multiple kubernetes namespaces found: " ++
          stringsJoin (a :: b :: rest) ", " ++ " (set INFRAHUB_K8S_NAMESPACE)")

/-- KubernetesBackend.IsRunning: a failed status query propagates its error;
a successful one yields true exactly when some returned phase equals
"Running" under case folding. -/
def KubernetesBackend.IsRunning (w : KWorld) (service : String) :
    Except String Bool :=
  match w.getPodStatuses service with
  | .error e => .error e
  | .ok statuses => .ok (statuses.any fun st => goEqualFold st "Running")

/-- Every member of a joined list occurs verbatim inside the join. -/
theorem stringsJoin_mem_decomp (x : String) (l : List String) (sep : String)
    (hx : x ∈ l) :
    ∃ pre post, (stringsJoin l sep).data = pre ++ x.data ++ post := by
  induction l with
  | nil => simp at hx
  | cons a rest ih =>
    rw [List.mem_cons] at hx
    rcases hx with h | h
    · subst h
      cases rest with
      | nil => exact ⟨[], [], by simp [stringsJoin]⟩
      | cons b rs =>
        refine ⟨[], (sep ++ stringsJoin (b :: rs) sep).data, ?_⟩
        simp [stringsJoin]
    · cases rest with
      | nil => simp at h
      | cons b rs =>
        obtain ⟨pre, post, hp⟩ := ih h
        refine ⟨(a ++ sep).data ++ pre, post, ?_⟩
        simp [stringsJoin, hp]

/-- C7: with no explicitly configured namespace, Detect maps zero discovered
candidates to the not-found sentinel, exactly one candidate to success with
that namespace recorded (in both the resolved and configured slots), and two
or more candidates to an ambiguity error whose message contains every
candidate. -/
theorem kubernetes_detect_namespace_discovery
    (w : KWorld) (k : KubernetesBackend) (namespaces : List String)
    (hcfg : k.k8sNamespace = "")
    (hcli : w.kubectlVersion = .ok ())
    (hls : w.listNamespaces = .ok namespaces) :
    (namespaces = [] →
      KubernetesBackend.Detect w k = .error ErrEnvironmentNotFound) ∧
    (∀ n, namespaces = [n] → KubernetesBackend.Detect w k =
      .ok { k8sNamespace := n, nsResolved := n }) ∧
    (∀ a b rest, namespaces = a :: b :: rest →
      KubernetesBackend.Detect w k =
        .error ("multiple kubernetes namespaces found: " ++
          stringsJoin namespaces ", " ++ " (set INFRAHUB_K8S_NAMESPACE)") ∧
      ∀ x ∈ namespaces, ∃ pre post,
        ("multiple kubernetes namespaces found: " ++ stringsJoin namespaces ", " ++
          " (set INFRAHUB_K8S_NAMESPACE)").data = pre ++ x.data ++ post) := by
  refine ⟨?_, ?_, ?_⟩
  · intro h
    subst h
    simp [KubernetesBackend.Detect, hcli, hls, hcfg]
  · intro n h
    subst h
    simp [KubernetesBackend.Detect, hcli, hls, hcfg]
  · intro a b rest h
    subst h
    constructor
    · simp [KubernetesBackend.Detect, hcli, hls, hcfg]
    · intro x hx
      obtain ⟨pre, post, hp⟩ := stringsJoin_mem_decomp x (a :: b :: rest) ", " hx
      refine ⟨("multiple kubernetes namespaces found: ").data ++ pre,
        post ++ (" (set INFRAHUB_K8S_NAMESPACE)").data, ?_⟩
      simp [hp]

/-- Concrete world for the C7 witness: two candidate namespaces. -/
def c7World : KWorld :=
  { kubectlVersion := .ok ()
    listNamespaces := .ok ["infrahub-a", "infrahub-b"]
    verifyNamespace := fun _ => .ok ()
    getPodStatuses := fun _ => .ok [] }

/-- C7 witness: the ambiguity case of the theorem at `c7World`. -/
theorem kubernetes_detect_namespace_discovery_witness :
    KubernetesBackend.Detect c7World ⟨"", ""⟩ =
      .error ("multiple kubernetes namespaces found: " ++
        stringsJoin ["infrahub-a", "infrahub-b"] ", " ++
        " (set INFRAHUB_K8S_NAMESPACE)") ∧
    ∀ x ∈ ["infrahub-a", "infrahub-b"], ∃ pre post,
      ("multiple kubernetes namespaces found: " ++
        stringsJoin ["infrahub-a", "infrahub-b"] ", " ++
        " (set INFRAHUB_K8S_NAMESPACE)").data = pre ++ x.data ++ post :=
  (kubernetes_detect_namespace_discovery c7World ⟨"", ""⟩
    ["infrahub-a", "infrahub-b"] rfl rfl rfl).2.2 "infrahub-a" "infrahub-b" [] rfl

/-- C10: when the pod-status query succeeds, IsRunning returns true exactly
when at least one returned phase equals "Running" case-insensitively, and a
successful query with zero matching pods yields `(false, nil)`, not an
error. -/
theorem kubernetes_is_running_iff_some_pod_running
    (w : KWorld) (service : String) (statuses : List String)
    (hq : w.getPodStatuses service = .ok statuses) :
    (KubernetesBackend.IsRunning w service = .ok true ↔
      ∃ st ∈ statuses, goEqualFold st "Running" = true) ∧
    (statuses = [] → KubernetesBackend.IsRunning w service = .ok false) := by
  constructor
  · simp [KubernetesBackend.IsRunning, hq, List.any_eq_true]
  · intro h
    subst h
    simp [KubernetesBackend.IsRunning, hq]

/-- Concrete world for the C10 witness: one pending pod and one pod whose
phase differs from "Running" only by case. -/
def c10World : KWorld :=
  { kubectlVersion := .ok ()
    listNamespaces := .ok []
    verifyNamespace := fun _ => .ok ()
    getPodStatuses := fun _ => .ok ["Pending", "running"] }

/-- C10 witness: the theorem applied at `c10World`. -/
theorem kubernetes_is_running_iff_some_pod_running_witness :
    KubernetesBackend.IsRunning c10World "database" = .ok true ↔
      ∃ st ∈ ["Pending", "running"], goEqualFold st "Running" = true :=
  (kubernetes_is_running_iff_some_pod_running c10World "database"
    ["Pending", "running"] rfl).1
